import Mathlib

/-!
Shallow embedding of the whatsup endpoint checker (sup.go, current variant)
together with proofs about its checking, aggregation and summarization logic.

Network and operating-system effects are modelled by an explicit oracle
record: the program text is translated function by function, with each Go
network call replaced by a lookup in the oracle.  The concurrent fan-out in
checkEndpoints computes one result per endpoint independently; the channel
drain observes those results in an arbitrary completion order, modelled as an
arbitrary permutation of the canonical per-endpoint result list.
-/

namespace Whatsup

/-- Go struct CheckResult from sup.go.  The Go error field is modelled as an
optional message string (nil error = none). -/
structure CheckResult where
  Endpoint : String
  Err : Option String
  Up : Bool
deriving DecidableEq

/-- Go struct CheckSummary from sup.go. -/
structure CheckSummary where
  AllUp : Bool
  Msg : String
deriving DecidableEq

/-- Go struct Config from sup.go. -/
structure Config where
  TeamsWebhookUrlSuccess : String
  TeamsWebhookUrlFailure : String
  Endpoints : List String
  Tries : Nat
  Https : Bool

/-- Oracle for the outside world.  httpGet models http.Get on a url at a given
attempt index, yielding a transport error message or a status code.
execCommand models exec.Command(...).Output() on an argv list, yielding a
launch error message or the captured textual output. -/
structure Network where
  httpGet : String → Nat → Except String Nat
  execCommand : List String → Except String String

/-- Go strings.Contains: sub occurs as a contiguous substring of s. -/
def goContains (s sub : String) : Bool :=
  decide (sub.toList <:+: s.toList)

/-- checkOS from sup.go: returns the runtime GOOS string together with an
error when it is not one of darwin, linux, windows. -/
def checkOS (goos : String) : String × Option String :=
  let testedOS := ["darwin", "linux", "windows"]
  if testedOS.contains goos then (goos, none)
  else (goos, some ("untested OS: " ++ goos))

/-- Argv list built by checkEndpointPing for exec.Command: the ping command,
the endpoint, the OS-specific attempt-count flag and the try count. -/
def pingArgs (endpoint : String) (tries : Nat) (os : String) : List String :=
  let triesArg := if os == "windows" then "-n" else "-c"
  ["ping", endpoint, triesArg, toString tries]

/-- Success markers from checkEndpointPing, selected by OS exactly as the Go
if chain does (windows, then darwin, otherwise the linux format). -/
def pingSuccessOutput (os : String) (tries : Nat) : String :=
  let successOutputLinux :=
    toString tries ++ " packets transmitted, " ++ toString tries ++ " received"
  let successOutputMac :=
    toString tries ++ " packets transmitted, " ++ toString tries ++ " packets received"
  let successOutputWindows :=
    "    Packets: Sent = " ++ toString tries ++ ", Received = " ++ toString tries
  if os == "windows" then successOutputWindows
  else if os == "darwin" then successOutputMac
  else successOutputLinux

/-- checkEndpointPing from sup.go.  The single channel write of the Go code is
modelled as the returned CheckResult. -/
def checkEndpointPing (net : Network) (endpoint : String) (tries : Nat) (os : String) :
    CheckResult :=
  match net.execCommand (pingArgs endpoint tries os) with
  | .error e => ⟨endpoint, some e, false⟩
  | .ok output =>
    if !(goContains output (pingSuccessOutput os tries)) then
      ⟨endpoint, some (endpoint ++ " failed to return all packets"), false⟩
    else
      ⟨endpoint, none, true⟩

/-- One loop iteration of checkEndpointHttps: the attempt at index i counts as
successful when http.Get on https://endpoint neither errors nor returns a
status other than 200 or 403. -/
def httpAttemptUp (net : Network) (endpoint : String) (i : Nat) : Bool :=
  match net.httpGet ("https://" ++ endpoint) i with
  | .error _ => false
  | .ok status => status == 200 || status == 403

/-- checkEndpointHttps from sup.go: counts successful attempts over the tries
loop iterations and reports up exactly when the count equals tries. -/
def checkEndpointHttps (net : Network) (endpoint : String) (tries : Nat) : CheckResult :=
  let successfulAttempts := (List.range tries).countP (fun i => httpAttemptUp net endpoint i)
  if successfulAttempts ≠ tries then
    ⟨endpoint, some (endpoint ++ " was not up for all " ++ toString tries ++ " attempts"), false⟩
  else
    ⟨endpoint, none, true⟩

/-- checkEndpoint from sup.go: dispatches on the https flag. -/
def checkEndpoint (net : Network) (endpoint : String) (tries : Nat) (os : String)
    (https : Bool) : CheckResult :=
  if https then checkEndpointHttps net endpoint tries
  else checkEndpointPing net endpoint tries os

/-- checkEndpoints from sup.go.  Each spawned goroutine computes exactly one
CheckResult for its endpoint; this canonical list records them in input
order. -/
def checkEndpoints (net : Network) (endpoints : List String) (os : String) (tries : Nat)
    (https : Bool) : List CheckResult :=
  endpoints.map (fun ept => checkEndpoint net ept tries os https)

/-- The channel drain of checkEndpoints observes the per-endpoint results in
an arbitrary completion order: a possible returned list is any permutation of
the canonical list. -/
def checkEndpointsRun (net : Network) (endpoints : List String) (os : String) (tries : Nat)
    (https : Bool) (results : List CheckResult) : Prop :=
  results.Perm (checkEndpoints net endpoints os tries https)

/-- filterDownEndpoints from sup.go: the down results in input order, paired
with an error carrying the down count when that count is nonzero. -/
def filterDownEndpoints (results : List CheckResult) : List CheckResult × Option String :=
  let downEndpoints := results.filter (fun r => !r.Up)
  let numDown := downEndpoints.length
  if numDown = 0 then ([], none)
  else (downEndpoints, some (toString numDown ++ " endpoints are down"))

/-- Rendering of a Go error value by the %s verb: the message for a non-nil
error, and the Go nil placeholder otherwise. -/
def errText : Option String → String
  | some m => m
  | none => "%!s(<nil>)"

/-- One per-endpoint line of the down-summary message built by
checkAndSummarizeEndpoints. -/
def downLine (d : CheckResult) : String :=
  "Endpoint: " ++ d.Endpoint ++ " | Error: " ++ errText d.Err ++ " \n\n"

/-- Summarization step of checkAndSummarizeEndpoints from sup.go, factored
over an already collected result list: partitions with filterDownEndpoints and
renders either the all-up message (with the checkMethod annotation exactly as
the Go code assigns it) or the down-count header followed by one line per down
result. -/
def checkAndSummarizeResults (results : List CheckResult) (https : Bool) : CheckSummary :=
  let fd := filterDownEndpoints results
  let downResults := fd.1
  let checkMethod := if https then "ping" else "HTTPS GET"
  match fd.2 with
  | none =>
    ⟨true, "All " ++ toString results.length ++ " endpoints are up, and were checked using "
        ++ checkMethod ++ "."⟩
  | some _ =>
    ⟨false, "**" ++ toString downResults.length ++ " endpoints are down!**\n\n\n\n"
        ++ String.join (downResults.map downLine)⟩

/-- checkAndSummarizeEndpoints from sup.go: check all endpoints, then
summarize. -/
def checkAndSummarizeEndpoints (net : Network) (endpoints : List String) (os : String)
    (tries : Nat) (https : Bool) : CheckSummary :=
  checkAndSummarizeResults (checkEndpoints net endpoints os tries https) https

/-- Oracle for sendSummaryMessageToTeams: given the two webhook urls and the
summary, the delivery either fails with an error message or succeeds. -/
def Notifier := String → String → CheckSummary → Option String

/-- Body of Sup after the OS gate has passed: compute and summarize, then send
the summary to Teams, wrapping a delivery error exactly as Sup does.  The ok
value carries the summary that was printed and delivered. -/
def supDispatch (net : Network) (notify : Notifier) (os : String) (cfg : Config) :
    Except String CheckSummary :=
  let checkSummary := checkAndSummarizeEndpoints net cfg.Endpoints os cfg.Tries cfg.Https
  match notify cfg.TeamsWebhookUrlSuccess cfg.TeamsWebhookUrlFailure checkSummary with
  | some e => .error ("error sending message: " ++ e)
  | none => .ok checkSummary

/-- Sup from sup.go: check the OS first and return its error unchanged when it
fails; otherwise dispatch the endpoint checks and notification. -/
def Sup (goos : String) (net : Network) (notify : Notifier) (cfg : Config) :
    Except String CheckSummary :=
  match checkOS goos with
  | (_, some e) => .error e
  | (os, none) => supDispatch net notify os cfg

/-- Stub environment in which every HTTP GET yields status 200 and the ping
command prints a linux-format all-received report for three tries. -/
def netStub : Network :=
  ⟨fun _ _ => .ok 200, fun _ => .ok "3 packets transmitted, 3 received, 0% packet loss"⟩

/-- Stub environment in which every command launch fails. -/
def netFail : Network :=
  ⟨fun _ _ => .error "connection refused", fun _ => .error "exec: ping: not found"⟩

/-- Stub notifier whose delivery always succeeds. -/
def notifyNone : Notifier := fun _ _ _ => none

/-- Stub configuration. -/
def cfgStub : Config := ⟨"", "", [], 0, true⟩

/-! Helper lemmas shared by several claims. -/

/-- A string with a nonempty suffix appended is nonempty. -/
theorem append_right_ne_empty (a b : String) (hb : b ≠ "") : a ++ b ≠ "" := by
  intro h
  have h2 : (a ++ b).data = "".data := by rw [h]
  simp only [String.data_append] at h2
  have h3 := List.append_eq_nil.mp h2
  apply hb
  cases b with
  | mk l =>
    simp only [String.data] at h3
    simp [h3.2]

/-- Every probe result carries the endpoint it was asked about. -/
theorem checkEndpoint_Endpoint (net : Network) (ept : String) (tries : Nat) (os : String)
    (https : Bool) : (checkEndpoint net ept tries os https).Endpoint = ept := by
  simp only [checkEndpoint, checkEndpointHttps, checkEndpointPing]
  split
  · split <;> rfl
  · split
    · rfl
    · split <;> rfl

/-- The success count of the HTTPS probe equals the try count exactly when
every attempt below the try count succeeds. -/
theorem countP_attempts_eq (net : Network) (endpoint : String) (tries : Nat) :
    ((List.range tries).countP (fun i => httpAttemptUp net endpoint i) = tries)
      ↔ ∀ i < tries, httpAttemptUp net endpoint i = true := by
  have hlen : (List.range tries).length = tries := List.length_range tries
  constructor
  · intro hc i hi
    exact List.countP_eq_length.mp (hc.trans hlen.symm) i (List.mem_range.mpr hi)
  · intro hall
    have hall2 : ∀ a ∈ List.range tries, (fun i => httpAttemptUp net endpoint i) a = true :=
      fun a ha => hall a (List.mem_range.mp ha)
    rw [List.countP_eq_length.mpr hall2, hlen]

/-! Claim theorems. -/

/-- C9: with a try count of zero the HTTPS probe returns the same result for
every network oracle — it consults the network not at all — and that result
reports the endpoint up with no cause. -/
theorem checkEndpointHttps_zero_tries (net : Network) (endpoint : String) :
    checkEndpointHttps net endpoint 0 = ⟨endpoint, none, true⟩ := by
  simp [checkEndpointHttps]

/-- C10: for both probe strategies, every result written to the channel has
Up true exactly when its Err field is nil. -/
theorem probe_up_iff_err_none (net : Network) (endpoint : String) (tries : Nat) (os : String) :
    ((checkEndpointPing net endpoint tries os).Up = true ↔
      (checkEndpointPing net endpoint tries os).Err = none)
    ∧ ((checkEndpointHttps net endpoint tries).Up = true ↔
      (checkEndpointHttps net endpoint tries).Err = none) := by
  constructor
  · simp only [checkEndpointPing]
    split
    · simp
    · split <;> simp
  · simp only [checkEndpointHttps]
    split <;> simp

/-- C2: the all-up summary names the probe kind that was NOT used.  With the
stub environment, an all-up HTTPS run (https = true) is annotated as checked
using ping, and an all-up native-ping run (https = false) as checked using
HTTPS GET: the checkMethod labels in checkAndSummarizeEndpoints are swapped. -/
theorem allUp_message_names_wrong_probe :
    checkAndSummarizeEndpoints netStub ["a.test"] "linux" 3 true =
      ⟨true, "All 1 endpoints are up, and were checked using ping."⟩
    ∧ checkAndSummarizeEndpoints netStub ["a.test"] "linux" 3 false =
      ⟨true, "All 1 endpoints are up, and were checked using HTTPS GET."⟩ := by
  constructor <;> rfl

/-- C3: for a positive try count the HTTPS probe reports the endpoint up
exactly when all attempts below the try count succeed, an attempt succeeds
exactly when its response status is 200 or 403, and a down report carries a
cause naming the endpoint and the configured attempt count. -/
theorem checkEndpointHttps_all_attempts (net : Network) (endpoint : String) (tries : Nat)
    (h : 0 < tries) :
    ((checkEndpointHttps net endpoint tries).Up = true ↔
      ∀ i < tries, httpAttemptUp net endpoint i = true)
    ∧ (∀ i s, net.httpGet ("https://" ++ endpoint) i = .ok s →
        (httpAttemptUp net endpoint i = true ↔ s = 200 ∨ s = 403))
    ∧ (∀ i e, net.httpGet ("https://" ++ endpoint) i = .error e →
        httpAttemptUp net endpoint i = false)
    ∧ ((checkEndpointHttps net endpoint tries).Up = false →
      (checkEndpointHttps net endpoint tries).Err =
        some (endpoint ++ " was not up for all " ++ toString tries ++ " attempts")) := by
  refine ⟨?_, ?_, ?_, ?_⟩
  · rw [← countP_attempts_eq net endpoint tries]
    simp only [checkEndpointHttps]
    split
    · next hne => simp [hne]
    · next heq => simp at heq; simp [heq]
  · intro i s hs
    unfold httpAttemptUp
    rw [hs]
    simp
  · intro i e he
    unfold httpAttemptUp
    rw [he]
  · simp only [checkEndpointHttps]
    split
    · intro _; rfl
    · intro hup; simp at hup

/-- C3 witness: with the stub environment answering every GET with status 200
and three tries, the probe reports the endpoint up. -/
theorem checkEndpointHttps_all_attempts_witness :
    0 < 3 ∧ (checkEndpointHttps netStub "example.com" 3).Up = true :=
  ⟨by decide,
    ((checkEndpointHttps_all_attempts netStub "example.com" 3 (by decide)).1).mpr (by decide)⟩

/-- C5: on any result list in which every result is up — the empty list
included — the summarization step reports AllUp true with a message containing
the literal result count. -/
theorem summarize_all_up (results : List CheckResult) (https : Bool)
    (h : ∀ r ∈ results, r.Up = true) :
    (checkAndSummarizeResults results https).AllUp = true
    ∧ ∃ s t, (checkAndSummarizeResults results https).Msg
        = s ++ toString results.length ++ t := by
  have hfil : results.filter (fun r => !r.Up) = [] := by
    rw [List.filter_eq_nil_iff]
    intro a ha
    simp [h a ha]
  simp only [checkAndSummarizeResults, filterDownEndpoints]
  rw [hfil]
  simp only [List.length_nil, if_pos rfl]
  refine ⟨rfl, "All ",
    " endpoints are up, and were checked using " ++ (if https then "ping" else "HTTPS GET")
      ++ ".", ?_⟩
  simp [String.append_assoc]

/-- C5 witness: the empty result list yields AllUp true and the count zero in
the message. -/
theorem summarize_all_up_witness :
    (checkAndSummarizeResults [] true).AllUp = true
    ∧ ∃ s t, (checkAndSummarizeResults [] true).Msg
        = s ++ toString (List.length ([] : List CheckResult)) ++ t :=
  summarize_all_up [] true (fun r hr => absurd hr (List.not_mem_nil r))

/-- C4: on any result list with a positive number of down results, the summary
has AllUp false and its message is exactly the bold down-count header followed
by one Endpoint/Error line, blank-line terminated, per down result in input
order — so no up result contributes anything to the message. -/
theorem summarize_down_message (results : List CheckResult) (https : Bool)
    (h : 0 < (results.filter (fun r => !r.Up)).length) :
    checkAndSummarizeResults results https =
      ⟨false, "**" ++ toString (results.filter (fun r => !r.Up)).length
          ++ " endpoints are down!**\n\n\n\n"
          ++ String.join ((results.filter (fun r => !r.Up)).map downLine)⟩ := by
  simp only [checkAndSummarizeResults, filterDownEndpoints]
  rw [if_neg (by omega : ¬ (results.filter (fun r => !r.Up)).length = 0)]

/-- C4 witness: one down result among one up result produces exactly the
header for count one and the single down line. -/
theorem summarize_down_message_witness :
    checkAndSummarizeResults
        [⟨"a.test", none, true⟩, ⟨"b.test", some "boom", false⟩] true =
      ⟨false, "**1 endpoints are down!**\n\n\n\nEndpoint: b.test | Error: boom \n\n"⟩ := by
  have h := summarize_down_message
      [⟨"a.test", none, true⟩, ⟨"b.test", some "boom", false⟩] true (by decide)
  rw [h]
  rfl

/-- C1 (amended): any result list a run of checkEndpoints can return — any
permutation of the canonical per-endpoint results — has one entry per
submitted endpoint occurrence: its length equals the endpoint count, its
endpoints are a permutation of the submitted list (none dropped), and when the
submitted list has no duplicates no endpoint appears twice among the
results. -/
theorem checkEndpoints_one_result_each (net : Network) (endpoints : List String) (os : String)
    (tries : Nat) (https : Bool) (results : List CheckResult)
    (h : checkEndpointsRun net endpoints os tries https results) :
    results.length = endpoints.length
    ∧ (results.map CheckResult.Endpoint).Perm endpoints
    ∧ (endpoints.Nodup → (results.map CheckResult.Endpoint).Nodup) := by
  have hmap : (checkEndpoints net endpoints os tries https).map CheckResult.Endpoint
      = endpoints := by
    unfold checkEndpoints
    rw [List.map_map]
    have hcomp : CheckResult.Endpoint ∘ (fun ept => checkEndpoint net ept tries os https)
        = id := by
      funext ept
      exact checkEndpoint_Endpoint net ept tries os https
    rw [hcomp, List.map_id]
  have hperm : (results.map CheckResult.Endpoint).Perm endpoints := by
    rw [← hmap]
    exact List.Perm.map CheckResult.Endpoint h
  refine ⟨?_, hperm, fun hnd => hperm.nodup_iff.mpr hnd⟩
  rw [List.Perm.length_eq h]
  unfold checkEndpoints
  exact List.length_map endpoints _

/-- C1 witness: a two-endpoint run returns two results. -/
theorem checkEndpoints_one_result_each_witness :
    (checkEndpoints netStub ["a", "b"] "linux" 1 true).length = 2 := by
  have h := checkEndpoints_one_result_each netStub ["a", "b"] "linux" 1 true
      (checkEndpoints netStub ["a", "b"] "linux" 1 true) (List.Perm.refl _)
  exact h.1.trans rfl

/-- C1 counterexample: when the submitted list itself repeats an endpoint, the
run produces two results for that endpoint, so the no-duplicates clause fails
for arbitrary endpoint lists. -/
theorem checkEndpoints_duplicate_counterexample :
    (checkEndpoints netStub ["a", "a"] "linux" 1 true).map CheckResult.Endpoint = ["a", "a"]
    ∧ ¬ ((checkEndpoints netStub ["a", "a"] "linux" 1 true).map CheckResult.Endpoint).Nodup := by
  constructor
  · rfl
  · decide

/-- C6: the ping probe passes the attempt-count flag -n on windows and -c on
every other OS to the ping command, and, given a successfully launched command
with captured output, reports up exactly when the output contains the
OS-specific all-packets-received marker (linux, darwin and windows formats). -/
theorem checkEndpointPing_flag_and_markers (net : Network) (endpoint : String) (tries : Nat)
    (os : String) :
    (os = "windows" → pingArgs endpoint tries os = ["ping", endpoint, "-n", toString tries])
    ∧ (os ≠ "windows" → pingArgs endpoint tries os = ["ping", endpoint, "-c", toString tries])
    ∧ (∀ output, net.execCommand (pingArgs endpoint tries os) = .ok output →
        (os = "linux" →
          ((checkEndpointPing net endpoint tries os).Up = true ↔
            goContains output (toString tries ++ " packets transmitted, "
              ++ toString tries ++ " received") = true))
        ∧ (os = "darwin" →
          ((checkEndpointPing net endpoint tries os).Up = true ↔
            goContains output (toString tries ++ " packets transmitted, "
              ++ toString tries ++ " packets received") = true))
        ∧ (os = "windows" →
          ((checkEndpointPing net endpoint tries os).Up = true ↔
            goContains output ("    Packets: Sent = " ++ toString tries
              ++ ", Received = " ++ toString tries) = true))) := by
  have hup : ∀ output, net.execCommand (pingArgs endpoint tries os) = .ok output →
      ((checkEndpointPing net endpoint tries os).Up
        = goContains output (pingSuccessOutput os tries)) := by
    intro output hx
    simp only [checkEndpointPing]
    rw [hx]
    by_cases hg : goContains output (pingSuccessOutput os tries) = true
    · simp [hg]
    · simp only [Bool.not_eq_true] at hg
      simp [hg]
  refine ⟨?_, ?_, ?_⟩
  · intro hos
    subst hos
    rfl
  · intro hos
    simp [pingArgs, hos]
  · intro output hx
    refine ⟨?_, ?_, ?_⟩ <;> intro hos <;> subst hos <;> rw [hup output hx] <;> exact Iff.rfl

/-- C6 witness: a linux ping whose captured output reports three of three
packets received is judged up. -/
theorem checkEndpointPing_flag_and_markers_witness :
    (checkEndpointPing netStub "a.test" 3 "linux").Up = true := by
  have h := (checkEndpointPing_flag_and_markers netStub "a.test" 3 "linux").2.2
      "3 packets transmitted, 3 received, 0% packet loss" rfl
  exact (h.1 rfl).mpr (by decide)

/-- C7: provided the environment never produces an empty launch-error message,
a run of checkEndpoints returns exactly one result per endpoint whatever the
probe failures, and every down result carries a nonempty cause — failures are
data, never a propagated error that shrinks the result list. -/
theorem probe_failure_captured_as_data (net : Network) (endpoints : List String) (os : String)
    (tries : Nat) (https : Bool)
    (hne : ∀ args e, net.execCommand args = .error e → e ≠ "") :
    (checkEndpoints net endpoints os tries https).length = endpoints.length
    ∧ ∀ r ∈ checkEndpoints net endpoints os tries https, r.Up = false →
        ∃ m, r.Err = some m ∧ m ≠ "" := by
  constructor
  · exact List.length_map endpoints _
  · intro r hr hdown
    unfold checkEndpoints at hr
    obtain ⟨ept, _, heq⟩ := List.mem_map.mp hr
    subst heq
    revert hdown
    simp only [checkEndpoint, checkEndpointHttps, checkEndpointPing]
    split
    · split
      · intro _
        exact ⟨_, rfl, append_right_ne_empty _ _ (by decide)⟩
      · intro hdown
        simp at hdown
    · split
      · next e hx =>
        intro _
        exact ⟨e, rfl, hne _ e hx⟩
      · split
        · intro _
          exact ⟨_, rfl, append_right_ne_empty _ _ (by decide)⟩
        · intro hdown
          simp at hdown

/-- C7 witness: a failed command launch is captured as a down result with a
nonempty cause. -/
theorem probe_failure_captured_as_data_witness :
    ∃ m, (checkEndpoint netFail "a" 1 "linux" false).Err = some m ∧ m ≠ "" := by
  have h := probe_failure_captured_as_data netFail ["a"] "linux" 1 false
      (by
        intro args e hx
        injection hx with hx
        rw [← hx]
        decide)
  exact h.2 (checkEndpoint netFail "a" 1 "linux" false) (by decide) (by decide)

/-- C8: when the GOOS string is none of darwin, linux, windows, Sup returns
the untested-OS error naming that string, and its outcome is the same for
every network and notifier oracle — no endpoint check or summary influences
it; when GOOS is one of the three, the OS gate passes and Sup proceeds to the
dispatch stage. -/
theorem sup_os_gate (goos : String) (cfg : Config) (net1 net2 : Network)
    (notify1 notify2 : Notifier) :
    ((goos ≠ "darwin" ∧ goos ≠ "linux" ∧ goos ≠ "windows") →
      Sup goos net1 notify1 cfg = .error ("untested OS: " ++ goos)
      ∧ Sup goos net1 notify1 cfg = Sup goos net2 notify2 cfg)
    ∧ ((goos = "darwin" ∨ goos = "linux" ∨ goos = "windows") →
      (checkOS goos).2 = none
      ∧ Sup goos net1 notify1 cfg = supDispatch net1 notify1 goos cfg) := by
  constructor
  · rintro ⟨h1, h2, h3⟩
    have hos : checkOS goos = (goos, some ("untested OS: " ++ goos)) := by
      simp only [checkOS]
      rw [if_neg (by simp [h1, h2, h3])]
    constructor
    · unfold Sup
      rw [hos]
    · unfold Sup
      rw [hos]
  · intro h
    have hos : checkOS goos = (goos, none) := by
      simp only [checkOS]
      rw [if_pos (by rcases h with h | h | h <;> subst h <;> decide)]
    constructor
    · rw [hos]
    · unfold Sup
      rw [hos]

/-- C8 witness: an unrecognized GOOS is rejected with the untested-OS error,
and a recognized one passes the gate. -/
theorem sup_os_gate_witness :
    Sup "plan9" netStub notifyNone cfgStub = .error ("untested OS: " ++ "plan9")
    ∧ (checkOS "linux").2 = none := by
  constructor
  · exact ((sup_os_gate "plan9" cfgStub netStub netStub notifyNone notifyNone).1
      ⟨by decide, by decide, by decide⟩).1
  · exact ((sup_os_gate "linux" cfgStub netStub netStub notifyNone notifyNone).2
      (Or.inr (Or.inl rfl))).1

end Whatsup
